import Mathlib

/-!
Shallow embedding of the journey lifecycle and fare settlement core of the
delhi-metro-ticket-booking-system repository.

Sources embedded here:
- `src/database/init/01_schema.sql` — table shapes and CHECK constraints
  (`chk_smartcard_balance_nonnegative`, `chk_smartcard_balance_limit`,
  `chk_journey_time_sequence`, `chk_journey_payment_method`).
- `src/database/init/02_indexes.sql` — SQL functions and triggers:
  `get_current_fare`, `start_journey`, `complete_journey`,
  `complete_journey_fare` (BEFORE UPDATE trigger on Journey),
  `mark_ticket_used` and `update_card_last_used` (AFTER INSERT triggers on
  Journey), `process_card_recharge` (AFTER INSERT trigger on Recharge),
  `recharge_smart_card`.
- `src/backend/src/controllers/journey.controller.js` — `journeyEntry`,
  `journeyExit` gate handlers.
- the card controller (`rechargeCard`) and
  `src/backend/src/middleware/validators.js` (`rechargeCard` validator,
  amount in [10, 10000]).

Monetary amounts are DECIMAL(10,2) in the schema; they are embedded as `Int`
counted in hundredths of a rupee (paise), so ₹10.00 is `1000` and the
₹10,000.00 balance ceiling is `1000000`.  Timestamps and dates are embedded as
a single `Nat` clock passed to each operation (the SQL `CURRENT_TIMESTAMP` /
`CURRENT_DATE` of that call).  Each gate/API call is one atomic unit of work:
a Postgres exception inside a statement aborts the whole statement, so an
operation either returns the fully updated database or an error with the
database unchanged.
-/

set_option autoImplicit false

namespace Metro

/-- Minimum card balance required at entry, ₹10.00 in paise
(journey.controller.js line 123 and `start_journey` line 775). -/
def minEntryBalance : Int := 1000

/-- Upper bound on a card balance, ₹10,000.00 in paise
(`chk_smartcard_balance_limit`). -/
def balanceCeiling : Int := 1000000

/-- Minimum recharge amount accepted by the `rechargeCard` validator, ₹10. -/
def rechargeMin : Int := 1000

/-- Maximum recharge amount accepted by the `rechargeCard` validator, ₹10,000. -/
def rechargeMax : Int := 1000000

/-- A row of the Station table (the fields the core reads). -/
structure Station where
  stationId : Nat
  isOperational : Bool
deriving Repr, DecidableEq

/-- A row of the Fare table. -/
structure FareRow where
  sourceStationId : Nat
  destinationStationId : Nat
  fareAmount : Int
  effectiveFrom : Nat
  effectiveUntil : Option Nat
deriving Repr, DecidableEq

/-- A row of the SmartCard table (the fields the core touches). -/
structure SmartCard where
  cardId : Nat
  balance : Int
  isActive : Bool
  lastUsedAt : Option Nat
deriving Repr, DecidableEq

/-- A row of the Booking table (the fields the journey controller reads). -/
structure Booking where
  bookingId : Nat
  sourceStationId : Nat
  destinationStationId : Nat
  totalFare : Int
deriving Repr, DecidableEq

/-- A row of the Ticket table (the fields the core touches). -/
structure Ticket where
  ticketId : Nat
  bookingId : Nat
  isUsed : Bool
  usedAt : Option Nat
  validFrom : Nat
  validUntil : Nat
deriving Repr, DecidableEq

/-- Journey.Status enumeration (`journey_status`). -/
inductive JourneyStatus where
  | Active
  | Completed
  | Cancelled
deriving Repr, DecidableEq

/-- A row of the Journey table. -/
structure Journey where
  journeyId : Nat
  ticketId : Option Nat
  cardId : Option Nat
  entryStationId : Nat
  entryTime : Nat
  exitStationId : Option Nat
  exitTime : Option Nat
  fareDeducted : Option Int
  status : JourneyStatus
deriving Repr, DecidableEq

/-- The tables the journey lifecycle core reads and writes, plus the Journey
primary-key sequence. -/
structure DB where
  stations : List Station
  fares : List FareRow
  cards : List SmartCard
  bookings : List Booking
  tickets : List Ticket
  journeys : List Journey
  nextJourneyId : Nat
deriving Repr, DecidableEq

/-- Gate media: QR ticket or smart card (`mediaType` in the controller,
`journey_type` in SQL). -/
inductive Media where
  | ticket (tid : Nat)
  | card (cid : Nat)
deriving Repr, DecidableEq

/-- Error outcomes of the embedded operations.  An error means the HTTP
handler returned an error response or the SQL statement raised an exception;
either way the unit of work left the database unchanged. -/
inductive Err where
  | StationNotFound
  | StationNotOperational
  | TicketNotFound
  | TicketAlreadyUsed
  | TicketNotValidNow
  | EntryStationMismatch
  | ActiveJourneyExists
  | TicketInvalid
  | CardNotFound
  | CardInactive
  | InsufficientBalance
  | NoActiveJourney
  | FareShortfall
  | JourneyNotFound
  | JourneyNotActive
  | BalanceCheckViolation
  | TimeCheckViolation
  | ValidationError
deriving Repr, DecidableEq

/-- SELECT from Station by primary key. -/
def DB.findStation (db : DB) (sid : Nat) : Option Station :=
  db.stations.find? (fun s => decide (s.stationId = sid))

/-- SELECT from SmartCard by primary key. -/
def DB.findCard (db : DB) (cid : Nat) : Option SmartCard :=
  db.cards.find? (fun c => decide (c.cardId = cid))

/-- SELECT from Ticket by primary key. -/
def DB.findTicket (db : DB) (tid : Nat) : Option Ticket :=
  db.tickets.find? (fun t => decide (t.ticketId = tid))

/-- SELECT from Booking by primary key. -/
def DB.findBooking (db : DB) (bid : Nat) : Option Booking :=
  db.bookings.find? (fun b => decide (b.bookingId = bid))

/-- SELECT from Journey by primary key. -/
def DB.findJourney (db : DB) (jid : Nat) : Option Journey :=
  db.journeys.find? (fun j => decide (j.journeyId = jid))

/-- Predicate of the controller query
`SELECT journeyid FROM journey WHERE ticketid = $1 AND status = 'Active'`. -/
def isActiveForTicket (tid : Nat) (j : Journey) : Bool :=
  decide (j.ticketId = some tid ∧ j.status = JourneyStatus.Active)

/-- Predicate of the controller query
`SELECT journeyid FROM journey WHERE cardid = $1 AND status = 'Active'`. -/
def isActiveForCard (cid : Nat) (j : Journey) : Bool :=
  decide (j.cardId = some cid ∧ j.status = JourneyStatus.Active)

/-- First Active journey row for a ticket (the controller reads `rows[0]`). -/
def DB.activeJourneyForTicket (db : DB) (tid : Nat) : Option Journey :=
  db.journeys.find? (isActiveForTicket tid)

/-- First Active journey row for a card (the controller reads `rows[0]`). -/
def DB.activeJourneyForCard (db : DB) (cid : Nat) : Option Journey :=
  db.journeys.find? (isActiveForCard cid)

/-- WHERE clause of `get_current_fare`: the fare row matches the ordered
station pair, `EffectiveFrom <= CURRENT_DATE`, and
`EffectiveUntil IS NULL OR EffectiveUntil > CURRENT_DATE`. -/
def fareEligible (now src dst : Nat) (f : FareRow) : Bool :=
  decide (f.sourceStationId = src) && decide (f.destinationStationId = dst) &&
  decide (f.effectiveFrom ≤ now) &&
  (match f.effectiveUntil with
   | none => true
   | some u => decide (now < u))

/-- `ORDER BY EffectiveFrom DESC LIMIT 1`: picks a row with maximal
`effectiveFrom` (unique in practice by `uq_fare_route`). -/
def selectLatest : List FareRow → Option FareRow
  | [] => none
  | f :: fs =>
    match selectLatest fs with
    | none => some f
    | some g => if g.effectiveFrom ≤ f.effectiveFrom then some f else some g

/-- SQL function `get_current_fare(p_source, p_destination)`: amount of the
currently effective fare row, with `COALESCE(v_fare, 0.00)` when none. -/
def get_current_fare (fares : List FareRow) (now src dst : Nat) : Int :=
  match selectLatest (fares.filter (fareEligible now src dst)) with
  | none => 0
  | some f => f.fareAmount

/-- CHECK constraints `chk_smartcard_balance_nonnegative` and
`chk_smartcard_balance_limit` on a SmartCard row. -/
def checkCard (c : SmartCard) : Bool :=
  decide (0 ≤ c.balance ∧ c.balance ≤ balanceCeiling)

/-- UPDATE of the SmartCard rows with the given CardID.  Postgres validates
the CHECK constraints on every updated row; a violation raises and aborts the
surrounding unit of work. -/
def updateCardChecked (cards : List SmartCard) (cid : Nat) (f : SmartCard → SmartCard) :
    Except Err (List SmartCard) :=
  if cards.all (fun c => !decide (c.cardId = cid) || checkCard (f c)) then
    Except.ok (cards.map (fun c => if c.cardId = cid then f c else c))
  else Except.error Err.BalanceCheckViolation

/-- SQL function `start_journey(p_journey_type, p_entry_station_id,
p_ticket_id, p_card_id)` together with the AFTER INSERT triggers on Journey
(`mark_ticket_used`, `update_card_last_used`).  The Ticket branch re-validates
`IsUsed = FALSE AND ValidFrom <= now AND ValidUntil >= now` (a missing row
leaves `v_ticket_valid` FALSE); the Card branch reads the balance of the
active card and enforces the ₹10 floor. -/
def start_journey (db : DB) (now : Nat) (media : Media) (entryStationId : Nat) :
    Except Err DB :=
  match media with
  | Media.ticket tid =>
    match db.findTicket tid with
    | none => Except.error Err.TicketInvalid
    | some t =>
      if t.isUsed = false ∧ t.validFrom ≤ now ∧ now ≤ t.validUntil then
        let newJourney : Journey :=
          { journeyId := db.nextJourneyId, ticketId := some tid, cardId := none,
            entryStationId := entryStationId, entryTime := now,
            exitStationId := none, exitTime := none, fareDeducted := none,
            status := JourneyStatus.Active }
        let tickets2 := db.tickets.map (fun u =>
          if u.ticketId = tid ∧ u.isUsed = false
          then { u with isUsed := true, usedAt := some now } else u)
        Except.ok { db with journeys := db.journeys ++ [newJourney],
                            tickets := tickets2,
                            nextJourneyId := db.nextJourneyId + 1 }
      else Except.error Err.TicketInvalid
  | Media.card cid =>
    match db.cards.find? (fun c => decide (c.cardId = cid ∧ c.isActive = true)) with
    | none => Except.error Err.CardNotFound
    | some c =>
      if c.balance < minEntryBalance then Except.error Err.InsufficientBalance
      else
        let newJourney : Journey :=
          { journeyId := db.nextJourneyId, ticketId := none, cardId := some cid,
            entryStationId := entryStationId, entryTime := now,
            exitStationId := none, exitTime := none, fareDeducted := none,
            status := JourneyStatus.Active }
        match updateCardChecked db.cards cid (fun u => { u with lastUsedAt := some now }) with
        | Except.error e => Except.error e
        | Except.ok cards2 =>
          Except.ok { db with journeys := db.journeys ++ [newJourney],
                              cards := cards2,
                              nextJourneyId := db.nextJourneyId + 1 }

/-- BEFORE UPDATE trigger `complete_journey_fare` applied to the updated
Journey row: when the status flips to Completed on a card journey with an
exit station, it computes `get_current_fare`, and if positive it checks the
balance and deducts, setting `NEW.FareDeducted`; when the fare is zero it
does nothing.  An insufficient balance raises, aborting the unit of work. -/
def complete_journey_fare (fares : List FareRow) (cards : List SmartCard) (now : Nat)
    (oldStatus : JourneyStatus) (newRow : Journey) :
    Except Err (Journey × List SmartCard) :=
  match newRow.cardId, newRow.exitStationId with
  | some cid, some exitSid =>
    if newRow.status = JourneyStatus.Completed ∧ oldStatus ≠ JourneyStatus.Completed then
      let v_fare := get_current_fare fares now newRow.entryStationId exitSid
      if 0 < v_fare then
        match cards.find? (fun c => decide (c.cardId = cid)) with
        | some c =>
          if v_fare ≤ c.balance then
            match updateCardChecked cards cid
                (fun u => { u with balance := u.balance - v_fare }) with
            | Except.error e => Except.error e
            | Except.ok cards2 =>
              Except.ok ({ newRow with fareDeducted := some v_fare }, cards2)
          else Except.error Err.InsufficientBalance
        | none => Except.error Err.InsufficientBalance
      else Except.ok (newRow, cards)
    else Except.ok (newRow, cards)
  | _, _ => Except.ok (newRow, cards)

/-- SQL function `complete_journey(p_journey_id, p_exit_station_id)`: loads
the journey (JourneyNotFound / JourneyNotActive), then updates it with the
exit station, `ExitTime = CURRENT_TIMESTAMP + INTERVAL '1 second'` and status
Completed; the BEFORE UPDATE trigger runs first and the row then passes the
`chk_journey_time_sequence` CHECK (`ExitTime > EntryTime`).  Returns the
`FareDeducted` of the updated row (NULL when no deduction happened). -/
def complete_journey (db : DB) (now : Nat) (jid exitStationId : Nat) :
    Except Err (DB × Option Int) :=
  match db.findJourney jid with
  | none => Except.error Err.JourneyNotFound
  | some v_journey =>
    if v_journey.status ≠ JourneyStatus.Active then Except.error Err.JourneyNotActive
    else
      let newRow : Journey :=
        { v_journey with exitStationId := some exitStationId,
                         exitTime := some (now + 1),
                         status := JourneyStatus.Completed }
      match complete_journey_fare db.fares db.cards now v_journey.status newRow with
      | Except.error e => Except.error e
      | Except.ok (finalRow, cards2) =>
        if finalRow.entryTime < now + 1 then
          let journeys2 := db.journeys.map (fun j => if j.journeyId = jid then finalRow else j)
          Except.ok ({ db with journeys := journeys2, cards := cards2 }, finalRow.fareDeducted)
        else Except.error Err.TimeCheckViolation

/-- Gate handler `journeyEntry` (journey.controller.js): station lookup and
operability, media-specific validation (ticket join booking: unused, inside
its validity window, gate station equal to the booked source station; card:
active and balance at least the ₹10 floor), the duplicate-Active-journey
check, then `start_journey`. -/
def journeyEntry (db : DB) (now : Nat) (media : Media) (stationId : Nat) :
    Except Err DB :=
  match db.findStation stationId with
  | none => Except.error Err.StationNotFound
  | some station =>
    if station.isOperational = false then Except.error Err.StationNotOperational
    else
      match media with
      | Media.ticket tid =>
        match db.findTicket tid with
        | none => Except.error Err.TicketNotFound
        | some t =>
          match db.findBooking t.bookingId with
          | none => Except.error Err.TicketNotFound
          | some b =>
            if t.isUsed = true then Except.error Err.TicketAlreadyUsed
            else if now < t.validFrom ∨ t.validUntil < now then
              Except.error Err.TicketNotValidNow
            else if b.sourceStationId ≠ stationId then
              Except.error Err.EntryStationMismatch
            else
              match db.activeJourneyForTicket tid with
              | some _ => Except.error Err.ActiveJourneyExists
              | none => start_journey db now (Media.ticket tid) stationId
      | Media.card cid =>
        match db.findCard cid with
        | none => Except.error Err.CardNotFound
        | some c =>
          if c.isActive = false then Except.error Err.CardInactive
          else if c.balance < minEntryBalance then Except.error Err.InsufficientBalance
          else
            match db.activeJourneyForCard cid with
            | some _ => Except.error Err.ActiveJourneyExists
            | none => start_journey db now (Media.card cid) stationId

/-- Gate handler `journeyExit` (journey.controller.js): station lookup and
operability, then the Active journey for the media (ticket side joins Ticket
and Booking, so a missing join partner also yields the no-active-journey
error).  Ticket side denies when the current fare exceeds the booked fare;
card side denies when the balance is below the current fare; otherwise
`complete_journey` runs. -/
def journeyExit (db : DB) (now : Nat) (media : Media) (stationId : Nat) :
    Except Err DB :=
  match db.findStation stationId with
  | none => Except.error Err.StationNotFound
  | some station =>
    if station.isOperational = false then Except.error Err.StationNotOperational
    else
      match media with
      | Media.ticket tid =>
        match db.activeJourneyForTicket tid with
        | none => Except.error Err.NoActiveJourney
        | some j =>
          match db.findTicket tid with
          | none => Except.error Err.NoActiveJourney
          | some t =>
            match db.findBooking t.bookingId with
            | none => Except.error Err.NoActiveJourney
            | some b =>
              if b.totalFare < get_current_fare db.fares now j.entryStationId stationId then
                Except.error Err.FareShortfall
              else
                match complete_journey db now j.journeyId stationId with
                | Except.error e => Except.error e
                | Except.ok (db2, _) => Except.ok db2
      | Media.card cid =>
        match db.activeJourneyForCard cid with
        | none => Except.error Err.NoActiveJourney
        | some j =>
          match db.findCard cid with
          | none => Except.error Err.CardNotFound
          | some c =>
            if c.balance < get_current_fare db.fares now j.entryStationId stationId then
              Except.error Err.InsufficientBalance
            else
              match complete_journey db now j.journeyId stationId with
              | Except.error e => Except.error e
              | Except.ok (db2, _) => Except.ok db2

/-- SQL function `recharge_smart_card` together with the AFTER INSERT trigger
`process_card_recharge` on Recharge: validates the amount is positive and the
card exists, then the trigger adds the amount to the balance and stamps
`LastUsedAt`; the SmartCard CHECK constraints abort the whole unit of work if
the new balance would exceed ₹10,000. -/
def recharge_smart_card (db : DB) (now : Nat) (cid : Nat) (amount : Int) :
    Except Err DB :=
  if amount ≤ 0 then Except.error Err.ValidationError
  else
    match db.findCard cid with
    | none => Except.error Err.CardNotFound
    | some _ =>
      match updateCardChecked db.cards cid
          (fun u => { u with balance := u.balance + amount, lastUsedAt := some now }) with
      | Except.error e => Except.error e
      | Except.ok cards2 => Except.ok { db with cards := cards2 }

/-- Recharge endpoint: the express-validator `rechargeCard` rule requires the
amount to lie in [₹10, ₹10,000] before the controller calls
`recharge_smart_card`. -/
def rechargeCard (db : DB) (now : Nat) (cid : Nat) (amount : Int) :
    Except Err DB :=
  if amount < rechargeMin ∨ rechargeMax < amount then Except.error Err.ValidationError
  else recharge_smart_card db now cid amount

/-- One gate/API call of the core. -/
inductive Op where
  | entry (now : Nat) (media : Media) (stationId : Nat)
  | exitOp (now : Nat) (media : Media) (stationId : Nat)
  | recharge (now : Nat) (cid : Nat) (amount : Int)
deriving Repr, DecidableEq

/-- Runs one operation, returning the updated database or the error. -/
def applyOp (db : DB) : Op → Except Err DB
  | Op.entry now m sid => journeyEntry db now m sid
  | Op.exitOp now m sid => journeyExit db now m sid
  | Op.recharge now cid amount => rechargeCard db now cid amount

/-- A failed unit of work leaves the database as if the call never happened. -/
def runOp (db : DB) (op : Op) : DB :=
  match applyOp db op with
  | Except.ok db2 => db2
  | Except.error _ => db

/-- Runs a sequence of operations. -/
def runOps (db : DB) (ops : List Op) : DB :=
  ops.foldl runOp db

/-- Two journey rows that are both Active and tied to the same media
identity (same card, or same ticket). -/
def sameActiveMedia (a b : Journey) : Bool :=
  decide (a.status = JourneyStatus.Active ∧ b.status = JourneyStatus.Active ∧
    ((a.cardId.isSome = true ∧ a.cardId = b.cardId) ∨
     (a.ticketId.isSome = true ∧ a.ticketId = b.ticketId)))

/-- At most one Active journey per media identity. -/
def uniqueActive (db : DB) : Prop :=
  List.Pairwise (fun a b => sameActiveMedia a b = false) db.journeys

/-- Every card balance lies within the CHECK-constraint bounds [0, ₹10,000]. -/
def balanceInvList (cards : List SmartCard) : Prop :=
  ∀ c ∈ cards, 0 ≤ c.balance ∧ c.balance ≤ balanceCeiling

/-- Balance invariant on the whole database. -/
def balanceInv (db : DB) : Prop :=
  balanceInvList db.cards

/-- Journey primary keys are pairwise distinct (SERIAL PRIMARY KEY). -/
def journeyIdsDistinct (db : DB) : Prop :=
  List.Pairwise (fun a b => a.journeyId ≠ b.journeyId) db.journeys

instance (db : DB) : Decidable (uniqueActive db) := by
  unfold uniqueActive; infer_instance

instance (db : DB) : Decidable (balanceInv db) := by
  unfold balanceInv balanceInvList; infer_instance

instance (db : DB) : Decidable (journeyIdsDistinct db) := by
  unfold journeyIdsDistinct; infer_instance

/-- Card primary keys are pairwise distinct (SERIAL PRIMARY KEY). -/
def cardIdsDistinct (db : DB) : Prop :=
  List.Pairwise (fun a b => a.cardId ≠ b.cardId) db.cards

instance (db : DB) : Decidable (cardIdsDistinct db) := by
  unfold cardIdsDistinct; infer_instance

/-! ### Lemmas about the fare selection -/

theorem selectLatest_eq_none {l : List FareRow} (h : selectLatest l = none) : l = [] := by
  cases l with
  | nil => rfl
  | cons f fs =>
    simp only [selectLatest] at h
    cases hsel : selectLatest fs with
    | none => rw [hsel] at h; simp at h
    | some g =>
      rw [hsel] at h
      simp only at h
      by_cases hle : g.effectiveFrom ≤ f.effectiveFrom <;> simp [hle] at h

theorem selectLatest_mem {l : List FareRow} {g : FareRow} (h : selectLatest l = some g) :
    g ∈ l := by
  induction l generalizing g with
  | nil => simp [selectLatest] at h
  | cons f fs ih =>
    simp only [selectLatest] at h
    cases hsel : selectLatest fs with
    | none =>
      rw [hsel] at h
      simp only [Option.some.injEq] at h
      exact h ▸ List.mem_cons_self f fs
    | some g0 =>
      rw [hsel] at h
      simp only at h
      by_cases hle : g0.effectiveFrom ≤ f.effectiveFrom
      · rw [if_pos hle] at h
        simp only [Option.some.injEq] at h
        exact h ▸ List.mem_cons_self f fs
      · rw [if_neg hle] at h
        simp only [Option.some.injEq] at h
        exact List.mem_cons_of_mem f (ih (h ▸ hsel))

theorem selectLatest_max {l : List FareRow} {g : FareRow} (h : selectLatest l = some g) :
    ∀ x ∈ l, x.effectiveFrom ≤ g.effectiveFrom := by
  induction l generalizing g with
  | nil => simp [selectLatest] at h
  | cons f fs ih =>
    simp only [selectLatest] at h
    intro x hx
    cases hsel : selectLatest fs with
    | none =>
      rw [hsel] at h
      simp only [Option.some.injEq] at h
      have hnil := selectLatest_eq_none hsel
      rcases List.mem_cons.mp hx with rfl | hx2
      · exact Nat.le_of_eq (by rw [h])
      · rw [hnil] at hx2; exact absurd hx2 (List.not_mem_nil x)
    | some g0 =>
      rw [hsel] at h
      simp only at h
      by_cases hle : g0.effectiveFrom ≤ f.effectiveFrom
      · rw [if_pos hle] at h
        simp only [Option.some.injEq] at h
        rcases List.mem_cons.mp hx with rfl | hx2
        · exact Nat.le_of_eq (by rw [h])
        · exact h ▸ le_trans (ih hsel x hx2) hle
      · rw [if_neg hle] at h
        simp only [Option.some.injEq] at h
        rcases List.mem_cons.mp hx with rfl | hx2
        · exact h ▸ Nat.le_of_lt (Nat.lt_of_not_le hle)
        · exact h ▸ ih hsel x hx2

/-! ### Generic list lemmas used to reason about keyed UPDATE and SELECT -/

theorem find?_unique_key {α : Type} (key : α → Nat) {l : List α} {a : α}
    (hdist : List.Pairwise (fun x y => key x ≠ key y) l) (hmem : a ∈ l) :
    l.find? (fun x => decide (key x = key a)) = some a := by
  induction l with
  | nil => exact absurd hmem (List.not_mem_nil a)
  | cons b bs ih =>
    rcases List.mem_cons.mp hmem with rfl | hmem2
    · rw [List.find?_cons_of_pos _ (by simp)]
    · have hne : key b ≠ key a :=
        (List.pairwise_cons.mp hdist).1 a hmem2
      rw [List.find?_cons_of_neg _ (by simp [hne])]
      exact ih (List.pairwise_cons.mp hdist).2 hmem2

theorem find?_key_map_cond {α : Type} (key : α → Nat) (f : α → α) (k : Nat)
    (p : α → Prop) [DecidablePred p]
    (hkey : ∀ x, p x → key (f x) = key x) {l : List α} {a : α}
    (hfind : l.find? (fun x => decide (key x = k)) = some a) :
    (l.map (fun x => if p x then f x else x)).find? (fun x => decide (key x = k)) =
      some (if p a then f a else a) := by
  induction l with
  | nil => simp [List.find?] at hfind
  | cons b bs ih =>
    by_cases hk : key b = k
    · have hb : b = a := by
        rw [List.find?_cons_of_pos _ (by simp [hk])] at hfind
        simpa using hfind
      subst hb
      by_cases hp : p b
      · rw [List.map_cons, if_pos hp, List.find?_cons_of_pos _ (by simp [hkey b hp, hk])]
      · rw [List.map_cons, if_neg hp, List.find?_cons_of_pos _ (by simp [hk])]
    · have hfind2 : bs.find? (fun x => decide (key x = k)) = some a := by
        rw [List.find?_cons_of_neg _ (by simp [hk])] at hfind
        exact hfind
      by_cases hp : p b
      · rw [List.map_cons, if_pos hp,
          List.find?_cons_of_neg _ (by simp [hkey b hp, hk])]
        exact ih hfind2
      · rw [List.map_cons, if_neg hp, List.find?_cons_of_neg _ (by simp [hk])]
        exact ih hfind2

theorem mem_unique_key {α : Type} (key : α → Nat) {l : List α} {a b : α}
    (hdist : List.Pairwise (fun x y => key x ≠ key y) l)
    (ha : a ∈ l) (hb : b ∈ l) (hk : key a = key b) : a = b := by
  by_contra hne
  exact hdist.forall (fun x y hxy => Ne.symm hxy) ha hb hne hk

instance {e a : Type} [DecidableEq e] [DecidableEq a] : DecidableEq (Except e a) := by
  intro x y
  cases x with
  | error u =>
    cases y with
    | error v => exact decidable_of_iff (u = v) (by simp)
    | ok w => exact isFalse (by simp)
  | ok u =>
    cases y with
    | error v => exact isFalse (by simp)
    | ok w => exact decidable_of_iff (u = w) (by simp)

/-! ### Claim theorems -/

/-- Claim C5: for every ordered station pair and evaluation instant,
`get_current_fare` returns the FareAmount of the fare row with the most
recent effectiveFrom ≤ now among rows whose effectiveUntil is null or in the
future, and returns zero when no such row exists. -/
theorem get_current_fare_correct :
    (∀ fares now src dst, (∀ f ∈ fares, fareEligible now src dst f = false) →
        get_current_fare fares now src dst = 0) ∧
    (∀ fares now src dst g, g ∈ fares → fareEligible now src dst g = true →
        (∀ f ∈ fares, fareEligible now src dst f = true → f ≠ g →
           f.effectiveFrom < g.effectiveFrom) →
        get_current_fare fares now src dst = g.fareAmount) := by
  constructor
  · intro fares now src dst hall
    unfold get_current_fare
    have hfil : fares.filter (fareEligible now src dst) = [] := by
      rw [List.filter_eq_nil_iff]
      intro a ha
      simp [hall a ha]
    rw [hfil]
    rfl
  · intro fares now src dst g hg helig hmax
    unfold get_current_fare
    have hgfil : g ∈ fares.filter (fareEligible now src dst) :=
      List.mem_filter.mpr ⟨hg, helig⟩
    cases hsel : selectLatest (fares.filter (fareEligible now src dst)) with
    | none =>
      rw [selectLatest_eq_none hsel] at hgfil
      exact absurd hgfil (List.not_mem_nil g)
    | some hrow =>
      simp only
      have hmem := selectLatest_mem hsel
      have hinfares := (List.mem_filter.mp hmem).1
      have helig2 := (List.mem_filter.mp hmem).2
      have hle := selectLatest_max hsel g hgfil
      by_cases heq : hrow = g
      · rw [heq]
      · have := hmax hrow hinfares helig2 heq
        omega

/-- Fare rows used as concrete inputs: two historic rows and one only
effective in the future. -/
def fareRowsEx : List FareRow :=
  [⟨1, 2, 1000, 0, some 5⟩, ⟨1, 2, 2000, 3, none⟩, ⟨1, 2, 9000, 50, none⟩]

/-- Witness for C5: no eligible row gives 0; among two eligible rows the one
with the later effectiveFrom wins. -/
theorem get_current_fare_correct_witness :
    get_current_fare [] 4 1 2 = 0 ∧ get_current_fare fareRowsEx 4 1 2 = 2000 :=
  ⟨get_current_fare_correct.1 [] 4 1 2 (by intro f hf; simp at hf),
   get_current_fare_correct.2 fareRowsEx 4 1 2 ⟨1, 2, 2000, 3, none⟩
     (by decide) (by decide) (by decide)⟩

/-- Claim C10: a ticket entry whose gate station differs from the booking
source station is rejected with the station-mismatch error even when the
ticket is unused and inside its validity window. -/
theorem ticket_entry_source_station_mismatch
    (db : DB) (now tid sid : Nat) (st : Station) (t : Ticket) (b : Booking)
    (hst : db.findStation sid = some st) (hop : st.isOperational = true)
    (ht : db.findTicket tid = some t) (hb : db.findBooking t.bookingId = some b)
    (hused : t.isUsed = false) (hvf : t.validFrom ≤ now) (hvu : now ≤ t.validUntil)
    (hmism : b.sourceStationId ≠ sid) :
    journeyEntry db now (Media.ticket tid) sid = Except.error Err.EntryStationMismatch := by
  unfold journeyEntry
  rw [hst]
  simp only
  rw [if_neg (by simp [hop])]
  rw [ht]
  simp only
  rw [hb]
  simp only
  rw [if_neg (by simp [hused]), if_neg (by omega), if_pos hmism]

/-- Concrete input for the C10 witness: unused valid ticket booked from
station 1, presented at station 2. -/
def ticketDB : DB :=
  ⟨[⟨1, true⟩, ⟨2, true⟩], [⟨1, 2, 3000, 0, none⟩], [],
   [⟨1, 1, 2, 3000⟩], [⟨1, 1, false, none, 0, 100⟩], [], 1⟩

/-- Witness for C10. -/
theorem ticket_entry_source_station_mismatch_witness :
    journeyEntry ticketDB 10 (Media.ticket 1) 2 = Except.error Err.EntryStationMismatch :=
  ticket_entry_source_station_mismatch ticketDB 10 1 2 ⟨2, true⟩
    ⟨1, 1, false, none, 0, 100⟩ ⟨1, 1, 2, 3000⟩
    (by decide) (by decide) (by decide) (by decide) (by decide) (by decide)
    (by decide) (by decide)

/-- Claim C3: a card exit where the balance is below the computed fare fails
with the insufficient-balance error and the whole unit of work leaves the
database (journey status, card balance) unchanged. -/
theorem card_exit_insufficient_balance
    (db : DB) (now cid sid : Nat) (st : Station) (j : Journey) (c : SmartCard)
    (hst : db.findStation sid = some st) (hop : st.isOperational = true)
    (hj : db.activeJourneyForCard cid = some j)
    (hc : db.findCard cid = some c)
    (hlt : c.balance < get_current_fare db.fares now j.entryStationId sid) :
    journeyExit db now (Media.card cid) sid = Except.error Err.InsufficientBalance ∧
    runOp db (Op.exitOp now (Media.card cid) sid) = db := by
  have hmain : journeyExit db now (Media.card cid) sid = Except.error Err.InsufficientBalance := by
    unfold journeyExit
    rw [hst]
    simp only
    rw [if_neg (by simp [hop])]
    rw [hj]
    simp only
    rw [hc]
    simp only
    rw [if_pos hlt]
  exact ⟨hmain, by simp [runOp, applyOp, hmain]⟩

/-- Concrete input for the C3 witness — Scenario D of the spec: balance ₹15,
fare(S1, S2) = ₹30, Active card journey from S1. -/
def scenarioD : DB :=
  ⟨[⟨1, true⟩, ⟨2, true⟩], [⟨1, 2, 3000, 0, none⟩], [⟨1, 1500, true, none⟩], [], [],
   [⟨1, none, some 1, 1, 10, none, none, none, JourneyStatus.Active⟩], 2⟩

/-- Witness for C3. -/
theorem card_exit_insufficient_balance_witness :
    journeyExit scenarioD 20 (Media.card 1) 2 = Except.error Err.InsufficientBalance ∧
    runOp scenarioD (Op.exitOp 20 (Media.card 1) 2) = scenarioD :=
  card_exit_insufficient_balance scenarioD 20 1 2 ⟨2, true⟩
    ⟨1, none, some 1, 1, 10, none, none, none, JourneyStatus.Active⟩
    ⟨1, 1500, true, none⟩ (by decide) (by decide) (by decide) (by decide) (by decide)

/-- Concrete state for the zero-fare exits: two operational stations, an
active card with balance ₹15, an empty Fare table and one Active card
journey from station 1. -/
def zeroFareDB : DB :=
  ⟨[⟨1, true⟩, ⟨2, true⟩], [], [⟨1, 1500, true, none⟩], [], [],
   [⟨7, none, some 1, 1, 10, none, none, none, JourneyStatus.Active⟩], 8⟩

/-- State after the zero-fare card exit from `zeroFareDB`. -/
def zeroFareDB2 : DB :=
  ⟨[⟨1, true⟩, ⟨2, true⟩], [], [⟨1, 1500, true, none⟩], [], [],
   [⟨7, none, some 1, 1, 10, some 2, some 21, none, JourneyStatus.Completed⟩], 8⟩

/-- Claim C4 (the code violates it): when `get_current_fare` returns the
zero sentinel, the card exit does NOT treat it as a failure — it completes
the journey as a free ride with nothing deducted and no FareDeducted
recorded. -/
theorem card_exit_zero_fare_completes_free_ride :
    get_current_fare zeroFareDB.fares 20 1 2 = 0 ∧
    journeyExit zeroFareDB 20 (Media.card 1) 2 = Except.ok zeroFareDB2 ∧
    zeroFareDB2.findJourney 7 =
      some ⟨7, none, some 1, 1, 10, some 2, some 21, none, JourneyStatus.Completed⟩ ∧
    zeroFareDB2.findCard 1 = some ⟨1, 1500, true, none⟩ := by
  decide

/-- Counterexample to claim C1 as stated: after the zero-fare exit the card
journey is Completed but its fareDeducted (NULL) differs from
`get_current_fare` at completion time (the zero sentinel). -/
theorem completed_card_journey_fare_mismatch :
    journeyExit zeroFareDB 20 (Media.card 1) 2 = Except.ok zeroFareDB2 ∧
    (∃ j ∈ zeroFareDB2.journeys, j.cardId = some 1 ∧ j.status = JourneyStatus.Completed ∧
       j.fareDeducted ≠ some (get_current_fare zeroFareDB.fares 20 j.entryStationId 2)) := by
  decide

/-- Claim C1 (amended with a positive settlement fare): when a card exit
completes a journey and the fare at completion time is positive, the
completed journey records fareDeducted equal to `get_current_fare` evaluated
at completion time and the card balance decreases by exactly that amount. -/
theorem card_exit_positive_fare_settlement
    (db : DB) (now cid sid : Nat) (st : Station) (j : Journey) (c : SmartCard)
    (hjd : journeyIdsDistinct db) (hcd : cardIdsDistinct db) (hinv : balanceInv db)
    (hst : db.findStation sid = some st) (hop : st.isOperational = true)
    (hj : db.activeJourneyForCard cid = some j)
    (hc : db.findCard cid = some c)
    (hfare : 0 < get_current_fare db.fares now j.entryStationId sid)
    (hbal : get_current_fare db.fares now j.entryStationId sid ≤ c.balance)
    (htime : j.entryTime ≤ now) :
    ∃ db2,
      journeyExit db now (Media.card cid) sid = Except.ok db2 ∧
      db2.findJourney j.journeyId = some { j with
        exitStationId := some sid, exitTime := some (now + 1),
        status := JourneyStatus.Completed,
        fareDeducted := some (get_current_fare db.fares now j.entryStationId sid) } ∧
      db2.findCard cid = some { c with
        balance := c.balance - get_current_fare db.fares now j.entryStationId sid } := by
  have hjmem : j ∈ db.journeys := List.mem_of_find?_eq_some hj
  have hjprop : j.cardId = some cid ∧ j.status = JourneyStatus.Active := by
    have := List.find?_some hj
    simpa [isActiveForCard] using this
  have hcmem : c ∈ db.cards := List.mem_of_find?_eq_some hc
  have hcid : c.cardId = cid := by
    have := List.find?_some hc
    simpa using this
  have hc2 : db.cards.find? (fun u => decide (u.cardId = cid)) = some c := hc
  have hfj : db.journeys.find? (fun x => decide (x.journeyId = j.journeyId)) = some j :=
    find?_unique_key Journey.journeyId hjd hjmem
  have hcbounds := hinv c hcmem
  have hall : db.cards.all (fun u => !decide (u.cardId = cid) ||
      checkCard { u with
        balance := u.balance - get_current_fare db.fares now j.entryStationId sid }) = true := by
    rw [List.all_eq_true]
    intro u hu
    by_cases hucid : u.cardId = cid
    · have huc : u = c := mem_unique_key SmartCard.cardId hcd hu hcmem (by rw [hucid, hcid])
      subst huc
      have hub := hinv u hu
      simp only [checkCard, Bool.or_eq_true, decide_eq_true_eq]
      right
      constructor
      · omega
      · simp only [balanceCeiling] at hub ⊢
        omega
    · simp [hucid]
  have hupd : updateCardChecked db.cards cid
      (fun u => { u with
        balance := u.balance - get_current_fare db.fares now j.entryStationId sid }) =
      Except.ok (db.cards.map (fun u => if u.cardId = cid then { u with
        balance := u.balance - get_current_fare db.fares now j.entryStationId sid } else u)) := by
    unfold updateCardChecked
    rw [if_pos hall]
  have hcjf : complete_journey_fare db.fares db.cards now j.status
      { j with
        exitStationId := some sid, exitTime := some (now + 1),
        status := JourneyStatus.Completed } =
      Except.ok ({ j with
        exitStationId := some sid, exitTime := some (now + 1),
        status := JourneyStatus.Completed,
        fareDeducted := some (get_current_fare db.fares now j.entryStationId sid) },
        db.cards.map (fun u => if u.cardId = cid then { u with
          balance := u.balance - get_current_fare db.fares now j.entryStationId sid } else u)) := by
    unfold complete_journey_fare
    simp only [hjprop.1]
    rw [if_pos (by simp [hjprop.2])]
    rw [if_pos hfare, hc2]
    simp only
    rw [if_pos hbal, hupd]
  have hcj : complete_journey db now j.journeyId sid =
      Except.ok ({ db with
        journeys := db.journeys.map (fun x => if x.journeyId = j.journeyId then
          { j with
            exitStationId := some sid, exitTime := some (now + 1),
            status := JourneyStatus.Completed,
            fareDeducted := some (get_current_fare db.fares now j.entryStationId sid) } else x),
        cards := db.cards.map (fun u => if u.cardId = cid then { u with
          balance := u.balance - get_current_fare db.fares now j.entryStationId sid } else u) },
        some (get_current_fare db.fares now j.entryStationId sid)) := by
    unfold complete_journey DB.findJourney
    rw [hfj]
    simp only
    rw [if_neg (by simp [hjprop.2])]
    rw [hcjf]
    simp only
    rw [if_pos (show j.entryTime < now + 1 by omega)]
  refine ⟨{ db with
      journeys := db.journeys.map (fun x => if x.journeyId = j.journeyId then
        { j with
          exitStationId := some sid, exitTime := some (now + 1),
          status := JourneyStatus.Completed,
          fareDeducted := some (get_current_fare db.fares now j.entryStationId sid) } else x),
      cards := db.cards.map (fun u => if u.cardId = cid then { u with
        balance := u.balance - get_current_fare db.fares now j.entryStationId sid } else u) },
    ?_, ?_, ?_⟩
  · unfold journeyExit
    rw [hst]
    simp only
    rw [if_neg (by simp [hop])]
    rw [hj]
    simp only
    rw [hc]
    simp only
    rw [if_neg (by omega), hcj]
  · unfold DB.findJourney
    simp only
    have := find?_key_map_cond Journey.journeyId
      (fun _ => { j with
        exitStationId := some sid, exitTime := some (now + 1),
        status := JourneyStatus.Completed,
        fareDeducted := some (get_current_fare db.fares now j.entryStationId sid) })
      j.journeyId (fun x => x.journeyId = j.journeyId)
      (fun x hx => by simp [hx]) hfj
    simpa using this
  · unfold DB.findCard
    simp only
    have := find?_key_map_cond SmartCard.cardId
      (fun u => { u with
        balance := u.balance - get_current_fare db.fares now j.entryStationId sid })
      cid (fun u => u.cardId = cid) (fun u hu => by simp [hu]) hc2
    simpa [hcid] using this

/-- Concrete input for the C1 witness — Scenario B mid-journey: balance ₹50,
fare(S1, S2) = ₹30, Active card journey from S1. -/
def scenarioB : DB :=
  ⟨[⟨1, true⟩, ⟨2, true⟩], [⟨1, 2, 3000, 0, none⟩], [⟨1, 5000, true, none⟩], [], [],
   [⟨1, none, some 1, 1, 10, none, none, none, JourneyStatus.Active⟩], 2⟩

/-- Witness for the amended C1: the exit completes the journey with
fareDeducted ₹30 and the balance drops from ₹50 to ₹20. -/
theorem card_exit_positive_fare_settlement_witness :
    ∃ db2, journeyExit scenarioB 20 (Media.card 1) 2 = Except.ok db2 ∧
      db2.findJourney 1 =
        some ⟨1, none, some 1, 1, 10, some 2, some 21, some 3000, JourneyStatus.Completed⟩ ∧
      db2.findCard 1 = some ⟨1, 2000, true, none⟩ := by
  have h := card_exit_positive_fare_settlement scenarioB 20 1 2 ⟨2, true⟩
    ⟨1, none, some 1, 1, 10, none, none, none, JourneyStatus.Active⟩ ⟨1, 5000, true, none⟩
    (by decide) (by decide) (by decide) (by decide) (by decide) (by decide) (by decide)
    (by decide) (by decide)
  simpa using h

/-! ### Success-shape lemmas for the three operations -/

theorem journeyEntry_ticket_ok_shape {db : DB} {now tid sid : Nat} {db2 : DB}
    (h : journeyEntry db now (Media.ticket tid) sid = Except.ok db2) :
    db.activeJourneyForTicket tid = none ∧
    (∀ t0, db.findTicket tid = some t0 → t0.isUsed = false) ∧
    db2.journeys = db.journeys ++
      [{ journeyId := db.nextJourneyId, ticketId := some tid, cardId := none,
         entryStationId := sid, entryTime := now, exitStationId := none,
         exitTime := none, fareDeducted := none, status := JourneyStatus.Active }] ∧
    db2.cards = db.cards ∧
    db2.tickets = db.tickets.map (fun u =>
      if u.ticketId = tid ∧ u.isUsed = false
      then { u with isUsed := true, usedAt := some now } else u) ∧
    db2.stations = db.stations ∧ db2.fares = db.fares ∧ db2.bookings = db.bookings := by
  unfold journeyEntry start_journey at h
  repeat' split at h
  all_goals simp at h
  all_goals subst h
  all_goals exact ⟨by simp_all, fun t0 ht0 => by simp_all, by simp_all, by simp_all,
    by simp_all, by simp_all, by simp_all, by simp_all⟩

theorem journeyEntry_card_ok_shape {db : DB} {now cid sid : Nat} {db2 : DB}
    (h : journeyEntry db now (Media.card cid) sid = Except.ok db2) :
    db.activeJourneyForCard cid = none ∧
    db2.journeys = db.journeys ++
      [{ journeyId := db.nextJourneyId, ticketId := none, cardId := some cid,
         entryStationId := sid, entryTime := now, exitStationId := none,
         exitTime := none, fareDeducted := none, status := JourneyStatus.Active }] ∧
    updateCardChecked db.cards cid (fun u => { u with lastUsedAt := some now }) =
      Except.ok db2.cards ∧
    db2.tickets = db.tickets ∧
    db2.stations = db.stations ∧ db2.fares = db.fares ∧ db2.bookings = db.bookings := by
  unfold journeyEntry start_journey at h
  repeat' split at h
  all_goals simp at h
  all_goals subst h
  all_goals exact ⟨by simp_all, by simp_all, by simp_all, by simp_all, by simp_all,
    by simp_all, by simp_all⟩

theorem rechargeCard_ok_shape {db : DB} {now cid : Nat} {amount : Int} {db2 : DB}
    (h : rechargeCard db now cid amount = Except.ok db2) :
    updateCardChecked db.cards cid
      (fun u => { u with balance := u.balance + amount, lastUsedAt := some now }) =
      Except.ok db2.cards ∧
    db2.journeys = db.journeys ∧ db2.tickets = db.tickets ∧
    db2.stations = db.stations ∧ db2.fares = db.fares ∧ db2.bookings = db.bookings := by
  unfold rechargeCard recharge_smart_card at h
  repeat' split at h
  all_goals simp at h
  all_goals subst h
  all_goals exact ⟨by simp_all, by simp_all, by simp_all, by simp_all, by simp_all,
    by simp_all⟩

theorem complete_journey_fare_ok_shape {fares : List FareRow} {cards : List SmartCard}
    {now : Nat} {oldStatus : JourneyStatus} {newRow fr : Journey} {cards2 : List SmartCard}
    (h : complete_journey_fare fares cards now oldStatus newRow = Except.ok (fr, cards2)) :
    fr.status = newRow.status ∧ fr.journeyId = newRow.journeyId ∧
    fr.entryTime = newRow.entryTime ∧
    (cards2 = cards ∨ ∃ cid f, updateCardChecked cards cid f = Except.ok cards2) := by
  unfold complete_journey_fare at h
  try simp only at h
  repeat' split at h
  all_goals try simp at h
  all_goals obtain ⟨h1, h2⟩ := h
  all_goals subst h1
  all_goals subst h2
  all_goals refine ⟨by simp, by simp, by simp, ?_⟩
  all_goals first
    | exact Or.inl rfl
    | exact Or.inr ⟨_, _, by assumption⟩

theorem complete_journey_ok_shape {db : DB} {now jid sid : Nat} {db2 : DB} {fd : Option Int}
    (h : complete_journey db now jid sid = Except.ok (db2, fd)) :
    ∃ finalRow,
      db2.journeys = db.journeys.map (fun x => if x.journeyId = jid then finalRow else x) ∧
      finalRow.status = JourneyStatus.Completed ∧
      (db2.cards = db.cards ∨ ∃ cid f, updateCardChecked db.cards cid f = Except.ok db2.cards) ∧
      db2.tickets = db.tickets ∧ db2.stations = db.stations ∧ db2.fares = db.fares ∧
      db2.bookings = db.bookings ∧ db2.nextJourneyId = db.nextJourneyId := by
  unfold complete_journey at h
  cases hfj : db.findJourney jid with
  | none => rw [hfj] at h; simp at h
  | some vj =>
    rw [hfj] at h
    simp only at h
    by_cases hact : vj.status ≠ JourneyStatus.Active
    · rw [if_pos hact] at h; simp at h
    · rw [if_neg hact] at h
      try simp only at h
      cases hcjf : complete_journey_fare db.fares db.cards now vj.status
          { vj with
            exitStationId := some sid, exitTime := some (now + 1),
            status := JourneyStatus.Completed } with
      | error e => rw [hcjf] at h; simp at h
      | ok p =>
        obtain ⟨fr, cards2⟩ := p
        rw [hcjf] at h
        simp only at h
        by_cases htime : fr.entryTime < now + 1
        · rw [if_pos htime] at h
          simp only [Except.ok.injEq, Prod.mk.injEq] at h
          obtain ⟨hdb, hfd⟩ := h
          subst hdb
          obtain ⟨hstat, _, _, hcards⟩ := complete_journey_fare_ok_shape hcjf
          refine ⟨fr, rfl, by simpa using hstat, ?_, rfl, rfl, rfl, rfl, rfl⟩
          rcases hcards with hcards | ⟨cid, f, hupd⟩
          · exact Or.inl hcards
          · exact Or.inr ⟨cid, f, hupd⟩
        · rw [if_neg htime] at h; simp at h

theorem journeyExit_ticket_ok_media {db : DB} {now tid sid : Nat} {db2 : DB}
    (h : journeyExit db now (Media.ticket tid) sid = Except.ok db2) :
    ∃ j fd, db.activeJourneyForTicket tid = some j ∧
      complete_journey db now j.journeyId sid = Except.ok (db2, fd) := by
  unfold journeyExit at h
  cases hst : db.findStation sid with
  | none => rw [hst] at h; simp at h
  | some st =>
    rw [hst] at h
    simp only at h
    by_cases hop : st.isOperational = false
    · rw [if_pos hop] at h; simp at h
    · rw [if_neg hop] at h
      cases hj : db.activeJourneyForTicket tid with
      | none => rw [hj] at h; simp at h
      | some j =>
        rw [hj] at h
        simp only at h
        cases ht : db.findTicket tid with
        | none => rw [ht] at h; simp at h
        | some t =>
          rw [ht] at h
          simp only at h
          cases hb : db.findBooking t.bookingId with
          | none => rw [hb] at h; simp at h
          | some b =>
            rw [hb] at h
            simp only at h
            by_cases hsf : b.totalFare < get_current_fare db.fares now j.entryStationId sid
            · rw [if_pos hsf] at h; simp at h
            · rw [if_neg hsf] at h
              cases hcj : complete_journey db now j.journeyId sid with
              | error e => rw [hcj] at h; simp at h
              | ok p =>
                obtain ⟨dbx, fdx⟩ := p
                rw [hcj] at h
                simp only at h
                have hdx : dbx = db2 := by simpa using h
                exact ⟨j, fdx, rfl, by rw [hcj, hdx]⟩

theorem journeyExit_card_ok_media {db : DB} {now cid sid : Nat} {db2 : DB}
    (h : journeyExit db now (Media.card cid) sid = Except.ok db2) :
    ∃ j fd, db.activeJourneyForCard cid = some j ∧
      complete_journey db now j.journeyId sid = Except.ok (db2, fd) := by
  unfold journeyExit at h
  cases hst : db.findStation sid with
  | none => rw [hst] at h; simp at h
  | some st =>
    rw [hst] at h
    simp only at h
    by_cases hop : st.isOperational = false
    · rw [if_pos hop] at h; simp at h
    · rw [if_neg hop] at h
      cases hj : db.activeJourneyForCard cid with
      | none => rw [hj] at h; simp at h
      | some j =>
        rw [hj] at h
        simp only at h
        cases hc : db.findCard cid with
        | none => rw [hc] at h; simp at h
        | some c =>
          rw [hc] at h
          simp only at h
          by_cases hbal : c.balance < get_current_fare db.fares now j.entryStationId sid
          · rw [if_pos hbal] at h; simp at h
          · rw [if_neg hbal] at h
            cases hcj : complete_journey db now j.journeyId sid with
            | error e => rw [hcj] at h; simp at h
            | ok p =>
              obtain ⟨dbx, fdx⟩ := p
              rw [hcj] at h
              simp only at h
              have hdx : dbx = db2 := by simpa using h
              exact ⟨j, fdx, rfl, by rw [hcj, hdx]⟩

/-! ### Balance invariant (C6) -/

theorem balanceInvList_updateCardChecked {cards : List SmartCard} {cid : Nat}
    {f : SmartCard → SmartCard} {cards2 : List SmartCard}
    (h : updateCardChecked cards cid f = Except.ok cards2)
    (hinv : balanceInvList cards) : balanceInvList cards2 := by
  unfold updateCardChecked at h
  by_cases hall : cards.all (fun c => !decide (c.cardId = cid) || checkCard (f c)) = true
  · rw [if_pos hall] at h
    simp only [Except.ok.injEq] at h
    subst h
    intro c2 hc2
    obtain ⟨c, hc, hceq⟩ := List.mem_map.mp hc2
    by_cases hcc : c.cardId = cid
    · rw [if_pos hcc] at hceq
      subst hceq
      have hck := (List.all_eq_true.mp hall) c hc
      simpa [hcc, checkCard] using hck
    · rw [if_neg hcc] at hceq
      subst hceq
      exact hinv c hc
  · rw [if_neg hall] at h
    simp at h

theorem applyOp_balanceInv {db : DB} {op : Op} {db2 : DB}
    (h : applyOp db op = Except.ok db2) (hinv : balanceInv db) : balanceInv db2 := by
  cases op with
  | entry now m sid =>
    cases m with
    | ticket tid =>
      obtain ⟨_, _, _, hcards, _⟩ := journeyEntry_ticket_ok_shape h
      unfold balanceInv
      rw [hcards]
      exact hinv
    | card cid =>
      obtain ⟨_, _, hupd, _⟩ := journeyEntry_card_ok_shape h
      exact balanceInvList_updateCardChecked hupd hinv
  | exitOp now m sid =>
    cases m with
    | ticket tid =>
      obtain ⟨j, fd, _, hcj⟩ := journeyExit_ticket_ok_media h
      obtain ⟨fr, _, _, hcards, _⟩ := complete_journey_ok_shape hcj
      rcases hcards with hcards | ⟨cid, f, hupd⟩
      · unfold balanceInv
        rw [hcards]
        exact hinv
      · exact balanceInvList_updateCardChecked hupd hinv
    | card cid =>
      obtain ⟨j, fd, _, hcj⟩ := journeyExit_card_ok_media h
      obtain ⟨fr, _, _, hcards, _⟩ := complete_journey_ok_shape hcj
      rcases hcards with hcards | ⟨cid2, f, hupd⟩
      · unfold balanceInv
        rw [hcards]
        exact hinv
      · exact balanceInvList_updateCardChecked hupd hinv
  | recharge now cid amount =>
    obtain ⟨hupd, _⟩ := rechargeCard_ok_shape h
    exact balanceInvList_updateCardChecked hupd hinv

theorem runOp_balanceInv {db : DB} (op : Op) (hinv : balanceInv db) :
    balanceInv (runOp db op) := by
  unfold runOp
  cases happ : applyOp db op with
  | error e => exact hinv
  | ok db2 => exact applyOp_balanceInv happ hinv

/-- Claim C6: from any state satisfying the CHECK-constraint bounds, every
sequence of operations keeps all card balances in [0, ₹10,000]; a credit
whose result would exceed the ceiling fails and leaves the state unchanged. -/
theorem card_balance_bounds :
    (∀ db ops, balanceInv db → balanceInv (runOps db ops)) ∧
    (∀ db now cid amount c, db.findCard cid = some c →
       balanceCeiling < c.balance + amount →
       (∃ e, rechargeCard db now cid amount = Except.error e) ∧
       runOp db (Op.recharge now cid amount) = db) := by
  constructor
  · intro db ops hinv
    induction ops generalizing db with
    | nil => exact hinv
    | cons op rest ih => exact ih (runOp db op) (runOp_balanceInv op hinv)
  · intro db now cid amount c hc hover
    have hcmem := List.mem_of_find?_eq_some hc
    have hcid : c.cardId = cid := by simpa using List.find?_some hc
    by_cases hval : amount < rechargeMin ∨ rechargeMax < amount
    · constructor
      · exact ⟨Err.ValidationError, by unfold rechargeCard; rw [if_pos hval]⟩
      · unfold runOp applyOp
        simp only
        unfold rechargeCard
        rw [if_pos hval]
    · have hpos : ¬ amount ≤ 0 := by
        simp only [rechargeMin, rechargeMax] at hval
        omega
      have herr : rechargeCard db now cid amount = Except.error Err.BalanceCheckViolation := by
        unfold rechargeCard recharge_smart_card
        rw [if_neg hval, if_neg hpos, hc]
        simp only
        unfold updateCardChecked
        rw [if_neg ?hall]
        case hall =>
          intro hall
          have hck := List.all_eq_true.mp hall c hcmem
          simp [hcid, checkCard, balanceCeiling] at hck
          simp only [balanceCeiling] at hover
          omega
      constructor
      · exact ⟨Err.BalanceCheckViolation, herr⟩
      · unfold runOp applyOp
        simp only
        rw [herr]

/-- Concrete input for the C6 witness: a card at ₹9,990 and a sequence of a
recharge, an entry and an exit; the over-ceiling recharge of ₹20 fails. -/
def nearCeilingDB : DB :=
  ⟨[⟨1, true⟩, ⟨2, true⟩], [⟨1, 2, 3000, 0, none⟩], [⟨1, 999000, true, none⟩], [], [], [], 1⟩

/-- Witness for C6. -/
theorem card_balance_bounds_witness :
    balanceInv (runOps nearCeilingDB
      [Op.recharge 5 1 1000, Op.entry 10 (Media.card 1) 1, Op.exitOp 20 (Media.card 1) 2]) ∧
    ((∃ e, rechargeCard nearCeilingDB 5 1 2000 = Except.error e) ∧
     runOp nearCeilingDB (Op.recharge 5 1 2000) = nearCeilingDB) :=
  ⟨card_balance_bounds.1 nearCeilingDB
      [Op.recharge 5 1 1000, Op.entry 10 (Media.card 1) 1, Op.exitOp 20 (Media.card 1) 2]
      (by decide),
   card_balance_bounds.2 nearCeilingDB 5 1 2000 ⟨1, 999000, true, none⟩
      (by decide) (by decide)⟩

/-! ### Unique Active journey invariant (C2) -/

theorem sameActiveMedia_states {a b : Journey} (h : sameActiveMedia a b = true) :
    a.status = JourneyStatus.Active ∧ b.status = JourneyStatus.Active := by
  simp only [sameActiveMedia, decide_eq_true_eq] at h
  exact ⟨h.1, h.2.1⟩

theorem sameActiveMedia_symm_false {a b : Journey} (h : sameActiveMedia a b = false) :
    sameActiveMedia b a = false := by
  by_contra hb
  have hb2 : sameActiveMedia b a = true := by
    cases hba : sameActiveMedia b a with
    | false => exact absurd hba hb
    | true => rfl
  have hab : sameActiveMedia a b = true := by
    simp only [sameActiveMedia, decide_eq_true_eq] at hb2 ⊢
    obtain ⟨h1, h2, h3⟩ := hb2
    refine ⟨h2, h1, ?_⟩
    rcases h3 with ⟨hs, he⟩ | ⟨hs, he⟩
    · exact Or.inl ⟨he ▸ hs, he.symm⟩
    · exact Or.inr ⟨he ▸ hs, he.symm⟩
  rw [hab] at h
  cases h

theorem uniqueActive_map_complete {l : List Journey} {jid : Nat} {fr : Journey}
    (hstat : fr.status = JourneyStatus.Completed)
    (hu : List.Pairwise (fun a b => sameActiveMedia a b = false) l) :
    List.Pairwise (fun a b => sameActiveMedia a b = false)
      (l.map (fun x => if x.journeyId = jid then fr else x)) := by
  refine List.Pairwise.map _ ?_ hu
  intro a b hab
  by_contra hfab
  have hfab2 : sameActiveMedia (if a.journeyId = jid then fr else a)
      (if b.journeyId = jid then fr else b) = true := by
    cases hx : sameActiveMedia (if a.journeyId = jid then fr else a)
        (if b.journeyId = jid then fr else b) with
    | false => exact absurd hx hfab
    | true => rfl
  have hsts := sameActiveMedia_states hfab2
  have ha : (if a.journeyId = jid then fr else a) = a := by
    by_cases haj : a.journeyId = jid
    · rw [if_pos haj] at hsts ⊢
      rw [hstat] at hsts
      cases hsts.1
    · rw [if_neg haj]
  have hb : (if b.journeyId = jid then fr else b) = b := by
    by_cases hbj : b.journeyId = jid
    · rw [if_pos hbj] at hsts ⊢
      rw [hstat] at hsts
      cases hsts.2
    · rw [if_neg hbj]
  rw [ha, hb] at hfab2
  rw [hfab2] at hab
  cases hab

theorem applyOp_uniqueActive {db : DB} {op : Op} {db2 : DB}
    (h : applyOp db op = Except.ok db2) (hu : uniqueActive db) : uniqueActive db2 := by
  cases op with
  | entry now m sid =>
    cases m with
    | ticket tid =>
      obtain ⟨hnone, _, hjs, _⟩ := journeyEntry_ticket_ok_shape h
      unfold uniqueActive at hu ⊢
      rw [hjs, List.pairwise_append]
      refine ⟨hu, by simp, ?_⟩
      intro a ha b hb
      simp only [List.mem_singleton] at hb
      subst hb
      have hna := List.find?_eq_none.mp hnone a ha
      simp only [isActiveForTicket, decide_eq_true_eq] at hna
      simp only [sameActiveMedia, decide_eq_false_iff_not]
      intro ⟨ha1, _, hmed⟩
      rcases hmed with ⟨hs, he⟩ | ⟨hs, he⟩
      · rw [he] at hs
        simp at hs
      · exact hna ⟨he, ha1⟩
    | card cid =>
      obtain ⟨hnone, hjs, _⟩ := journeyEntry_card_ok_shape h
      unfold uniqueActive at hu ⊢
      rw [hjs, List.pairwise_append]
      refine ⟨hu, by simp, ?_⟩
      intro a ha b hb
      simp only [List.mem_singleton] at hb
      subst hb
      have hna := List.find?_eq_none.mp hnone a ha
      simp only [isActiveForCard, decide_eq_true_eq] at hna
      simp only [sameActiveMedia, decide_eq_false_iff_not]
      intro ⟨ha1, _, hmed⟩
      rcases hmed with ⟨hs, he⟩ | ⟨hs, he⟩
      · exact hna ⟨he, ha1⟩
      · rw [he] at hs
        simp at hs
  | exitOp now m sid =>
    cases m with
    | ticket tid =>
      obtain ⟨j, fd, _, hcj⟩ := journeyExit_ticket_ok_media h
      obtain ⟨fr, hjs, hstat, _⟩ := complete_journey_ok_shape hcj
      unfold uniqueActive at hu ⊢
      rw [hjs]
      exact uniqueActive_map_complete hstat hu
    | card cid =>
      obtain ⟨j, fd, _, hcj⟩ := journeyExit_card_ok_media h
      obtain ⟨fr, hjs, hstat, _⟩ := complete_journey_ok_shape hcj
      unfold uniqueActive at hu ⊢
      rw [hjs]
      exact uniqueActive_map_complete hstat hu
  | recharge now cid amount =>
    obtain ⟨_, hjs, _⟩ := rechargeCard_ok_shape h
    unfold uniqueActive at hu ⊢
    rw [hjs]
    exact hu

theorem runOp_uniqueActive {db : DB} (op : Op) (hu : uniqueActive db) :
    uniqueActive (runOp db op) := by
  unfold runOp
  cases happ : applyOp db op with
  | error e => exact hu
  | ok db2 => exact applyOp_uniqueActive happ hu

/-- Claim C2: from any state with at most one Active journey per media
identity, every sequence of entry, exit and recharge operations preserves
that property. -/
theorem at_most_one_active_per_media :
    ∀ db ops, uniqueActive db → uniqueActive (runOps db ops) := by
  intro db ops hu
  induction ops generalizing db with
  | nil => exact hu
  | cons op rest ih => exact ih (runOp db op) (runOp_uniqueActive op hu)

/-- Witness for C2: a ticket entry, a duplicate entry attempt, a card entry
and both exits, starting from a state with one ticket and one card. -/
theorem at_most_one_active_per_media_witness :
    uniqueActive (runOps
      ⟨[⟨1, true⟩, ⟨2, true⟩], [⟨1, 2, 3000, 0, none⟩], [⟨1, 5000, true, none⟩],
       [⟨1, 1, 2, 3000⟩], [⟨1, 1, false, none, 0, 100⟩], [], 1⟩
      [Op.entry 10 (Media.ticket 1) 1, Op.entry 11 (Media.ticket 1) 1,
       Op.entry 12 (Media.card 1) 1, Op.exitOp 20 (Media.ticket 1) 2,
       Op.exitOp 21 (Media.card 1) 2]) :=
  at_most_one_active_per_media
    ⟨[⟨1, true⟩, ⟨2, true⟩], [⟨1, 2, 3000, 0, none⟩], [⟨1, 5000, true, none⟩],
     [⟨1, 1, 2, 3000⟩], [⟨1, 1, false, none, 0, 100⟩], [], 1⟩
    [Op.entry 10 (Media.ticket 1) 1, Op.entry 11 (Media.ticket 1) 1,
     Op.entry 12 (Media.card 1) 1, Op.exitOp 20 (Media.ticket 1) 2,
     Op.exitOp 21 (Media.card 1) 2]
    (by decide)

/-! ### Ticket isUsed lifecycle (C7) -/

theorem runOp_findTicket {db : DB} (op : Op) {tid : Nat} {t : Ticket}
    (hfind : db.findTicket tid = some t) :
    (runOp db op).findTicket tid = some t ∨
    ∃ now2 sid2, op = Op.entry now2 (Media.ticket tid) sid2 ∧
      journeyEntry db now2 (Media.ticket tid) sid2 = Except.ok (runOp db op) ∧
      (runOp db op).findTicket tid =
        some (if t.ticketId = tid ∧ t.isUsed = false
              then { t with isUsed := true, usedAt := some now2 } else t) := by
  unfold runOp
  cases happ : applyOp db op with
  | error e => exact Or.inl hfind
  | ok db2 =>
    cases op with
    | entry now m sid =>
      cases m with
      | ticket tid2 =>
        obtain ⟨_, _, _, _, htk, _⟩ := journeyEntry_ticket_ok_shape happ
        by_cases htid : tid2 = tid
        · subst htid
          right
          refine ⟨now, sid, rfl, happ, ?_⟩
          unfold DB.findTicket at hfind ⊢
          rw [htk]
          exact find?_key_map_cond Ticket.ticketId
            (fun u => { u with isUsed := true, usedAt := some now }) tid2
            (fun u => u.ticketId = tid2 ∧ u.isUsed = false)
            (fun x hx => rfl) hfind
        · left
          have httid : t.ticketId = tid := by simpa using List.find?_some hfind
          unfold DB.findTicket at hfind ⊢
          rw [htk]
          have hmap := find?_key_map_cond Ticket.ticketId
            (fun u => { u with isUsed := true, usedAt := some now }) tid
            (fun u => u.ticketId = tid2 ∧ u.isUsed = false)
            (fun x hx => rfl) hfind
          rw [hmap, if_neg (fun hcon => htid (hcon.1.symm.trans httid))]
      | card cid =>
        obtain ⟨_, _, _, htk, _⟩ := journeyEntry_card_ok_shape happ
        left
        unfold DB.findTicket at hfind ⊢
        rw [htk]
        exact hfind
    | exitOp now m sid =>
      left
      cases m with
      | ticket tid2 =>
        obtain ⟨j, fd, _, hcj⟩ := journeyExit_ticket_ok_media happ
        obtain ⟨fr, _, _, _, htk, _⟩ := complete_journey_ok_shape hcj
        unfold DB.findTicket at hfind ⊢
        rw [htk]
        exact hfind
      | card cid =>
        obtain ⟨j, fd, _, hcj⟩ := journeyExit_card_ok_media happ
        obtain ⟨fr, _, _, _, htk, _⟩ := complete_journey_ok_shape hcj
        unfold DB.findTicket at hfind ⊢
        rw [htk]
        exact hfind
    | recharge now cid amount =>
      obtain ⟨_, _, htk, _⟩ := rechargeCard_ok_shape happ
      left
      unfold DB.findTicket at hfind ⊢
      rw [htk]
      exact hfind

/-- Claim C7: a ticket's isUsed flag never reverts from true; it flips from
false to true only through a successful ticket entry for that ticket; a
successful ticket entry does flip it (with usedAt stamped); and a used
ticket can never start another journey. -/
theorem ticket_isUsed_lifecycle :
    (∀ db op tid t t2, db.findTicket tid = some t →
       (runOp db op).findTicket tid = some t2 → t.isUsed = true → t2.isUsed = true) ∧
    (∀ db op tid t t2, db.findTicket tid = some t →
       (runOp db op).findTicket tid = some t2 → t.isUsed = false → t2.isUsed = true →
       ∃ now2 sid2, op = Op.entry now2 (Media.ticket tid) sid2 ∧
         journeyEntry db now2 (Media.ticket tid) sid2 = Except.ok (runOp db op)) ∧
    (∀ db now tid sid db2 t, journeyEntry db now (Media.ticket tid) sid = Except.ok db2 →
       db.findTicket tid = some t →
       db2.findTicket tid = some { t with isUsed := true, usedAt := some now }) ∧
    (∀ db now tid sid t, db.findTicket tid = some t → t.isUsed = true →
       ∃ e, journeyEntry db now (Media.ticket tid) sid = Except.error e) := by
  refine ⟨?_, ?_, ?_, ?_⟩
  · intro db op tid t t2 hfind hfind2 hused
    rcases runOp_findTicket op hfind with hsame | ⟨now2, sid2, _, _, hflip⟩
    · rw [hsame] at hfind2
      injection hfind2 with h
      rw [← h]
      exact hused
    · rw [hflip] at hfind2
      injection hfind2 with h
      rw [← h]
      simp [hused]
  · intro db op tid t t2 hfind hfind2 hunused hused2
    rcases runOp_findTicket op hfind with hsame | ⟨now2, sid2, hop, hok, hflip⟩
    · rw [hsame] at hfind2
      injection hfind2 with h
      rw [← h] at hused2
      simp [hunused] at hused2
    · exact ⟨now2, sid2, hop, hok⟩
  · intro db now tid sid db2 t hok hfind
    obtain ⟨_, hunusedAll, _, _, htk, _⟩ := journeyEntry_ticket_ok_shape hok
    have httid : t.ticketId = tid := by simpa using List.find?_some hfind
    have hunused := hunusedAll t hfind
    unfold DB.findTicket at hfind ⊢
    rw [htk]
    have hmap := find?_key_map_cond Ticket.ticketId
      (fun u => { u with isUsed := true, usedAt := some now }) tid
      (fun u => u.ticketId = tid ∧ u.isUsed = false) (fun x hx => rfl) hfind
    rw [hmap, if_pos ⟨httid, hunused⟩]
  · intro db now tid sid t hfind hused
    unfold journeyEntry
    cases hst : db.findStation sid with
    | none => exact ⟨Err.StationNotFound, rfl⟩
    | some st =>
      simp only
      by_cases hop : st.isOperational = false
      · rw [if_pos hop]
        exact ⟨Err.StationNotOperational, rfl⟩
      · rw [if_neg hop, hfind]
        simp only
        cases hb : db.findBooking t.bookingId with
        | none => exact ⟨Err.TicketNotFound, rfl⟩
        | some b =>
          simp only
          rw [if_pos hused]
          exact ⟨Err.TicketAlreadyUsed, rfl⟩

/-- `ticketDB` with its ticket already used. -/
def usedTicketDB : DB :=
  ⟨[⟨1, true⟩, ⟨2, true⟩], [⟨1, 2, 3000, 0, none⟩], [],
   [⟨1, 1, 2, 3000⟩], [⟨1, 1, true, some 3, 0, 100⟩], [], 1⟩

/-- State of `ticketDB` after the successful ticket entry at station 1,
time 10. -/
def ticketDB2 : DB :=
  ⟨[⟨1, true⟩, ⟨2, true⟩], [⟨1, 2, 3000, 0, none⟩], [],
   [⟨1, 1, 2, 3000⟩], [⟨1, 1, true, some 10, 0, 100⟩],
   [⟨1, some 1, none, 1, 10, none, none, none, JourneyStatus.Active⟩], 2⟩

/-- Witness for C7: the four lifecycle facts instantiated on concrete
states — a used ticket stays used across an unrelated operation, the flip
happened through the successful entry, the entry stamps isUsed/usedAt, and a
used ticket cannot start a journey. -/
theorem ticket_isUsed_lifecycle_witness :
    (⟨1, 1, true, some 3, 0, 100⟩ : Ticket).isUsed = true ∧
    (∃ now2 sid2, Op.entry 10 (Media.ticket 1) 1 = Op.entry now2 (Media.ticket 1) sid2 ∧
       journeyEntry ticketDB now2 (Media.ticket 1) sid2 =
         Except.ok (runOp ticketDB (Op.entry 10 (Media.ticket 1) 1))) ∧
    ticketDB2.findTicket 1 = some ⟨1, 1, true, some 10, 0, 100⟩ ∧
    (∃ e, journeyEntry usedTicketDB 10 (Media.ticket 1) 1 = Except.error e) := by
  refine ⟨?_, ?_, ?_, ?_⟩
  · exact ticket_isUsed_lifecycle.1 usedTicketDB (Op.recharge 5 9 1000) 1
      ⟨1, 1, true, some 3, 0, 100⟩ ⟨1, 1, true, some 3, 0, 100⟩
      (by decide) (by decide) (by decide)
  · exact ticket_isUsed_lifecycle.2.1 ticketDB (Op.entry 10 (Media.ticket 1) 1) 1
      ⟨1, 1, false, none, 0, 100⟩ ⟨1, 1, true, some 10, 0, 100⟩
      (by decide) (by decide) (by decide) (by decide)
  · exact ticket_isUsed_lifecycle.2.2.1 ticketDB 10 1 1 ticketDB2
      ⟨1, 1, false, none, 0, 100⟩ (by decide) (by decide)
  · exact ticket_isUsed_lifecycle.2.2.2 usedTicketDB 10 1 1
      ⟨1, 1, true, some 3, 0, 100⟩ (by decide) (by decide)

/-! ### Exit idempotence (C8) -/

/-- Claim C8: once an exit succeeds, a second exit for the same media fails
with the no-active-journey error, and a journey that is not Active (Completed
or Cancelled) can never be completed again. -/
theorem exit_twice_fails
    (db : DB) (now sid now2 sid2 : Nat) (media : Media) (db2 : DB) (st2 : Station)
    (hu : uniqueActive db)
    (h : journeyExit db now media sid = Except.ok db2)
    (hst2 : db2.findStation sid2 = some st2) (hop2 : st2.isOperational = true) :
    journeyExit db2 now2 media sid2 = Except.error Err.NoActiveJourney ∧
    (∀ jid j, db2.findJourney jid = some j → j.status ≠ JourneyStatus.Active →
       ∀ n s, complete_journey db2 n jid s = Except.error Err.JourneyNotActive) := by
  constructor
  · cases media with
    | card cid =>
      obtain ⟨j, fd, hj, hcj⟩ := journeyExit_card_ok_media h
      obtain ⟨fr, hjs, hstat, _⟩ := complete_journey_ok_shape hcj
      have hjmem : j ∈ db.journeys := List.mem_of_find?_eq_some hj
      have hjact := List.find?_some hj
      simp only [isActiveForCard, decide_eq_true_eq] at hjact
      have hnone : db2.activeJourneyForCard cid = none := by
        unfold DB.activeJourneyForCard
        rw [hjs, List.find?_eq_none]
        intro y hy
        obtain ⟨x, hx, hxy⟩ := List.mem_map.mp hy
        by_cases hxj : x.journeyId = j.journeyId
        · rw [if_pos hxj] at hxy
          subst hxy
          simp [isActiveForCard, hstat]
        · rw [if_neg hxj] at hxy
          subst hxy
          intro hactive
          simp only [isActiveForCard, decide_eq_true_eq] at hactive
          have hxne : x ≠ j := fun he => hxj (by rw [he])
          have hfalse := List.Pairwise.forall
            (fun p q hpq => sameActiveMedia_symm_false hpq) hu hx hjmem hxne
          have htrue : sameActiveMedia x j = true := by
            simp only [sameActiveMedia, decide_eq_true_eq]
            exact ⟨hactive.2, hjact.2, Or.inl ⟨by simp [hactive.1],
              hactive.1.trans hjact.1.symm⟩⟩
          rw [htrue] at hfalse
          cases hfalse
      unfold journeyExit
      rw [hst2]
      simp only
      rw [if_neg (by simp [hop2]), hnone]
    | ticket tid =>
      obtain ⟨j, fd, hj, hcj⟩ := journeyExit_ticket_ok_media h
      obtain ⟨fr, hjs, hstat, _⟩ := complete_journey_ok_shape hcj
      have hjmem : j ∈ db.journeys := List.mem_of_find?_eq_some hj
      have hjact := List.find?_some hj
      simp only [isActiveForTicket, decide_eq_true_eq] at hjact
      have hnone : db2.activeJourneyForTicket tid = none := by
        unfold DB.activeJourneyForTicket
        rw [hjs, List.find?_eq_none]
        intro y hy
        obtain ⟨x, hx, hxy⟩ := List.mem_map.mp hy
        by_cases hxj : x.journeyId = j.journeyId
        · rw [if_pos hxj] at hxy
          subst hxy
          simp [isActiveForTicket, hstat]
        · rw [if_neg hxj] at hxy
          subst hxy
          intro hactive
          simp only [isActiveForTicket, decide_eq_true_eq] at hactive
          have hxne : x ≠ j := fun he => hxj (by rw [he])
          have hfalse := List.Pairwise.forall
            (fun p q hpq => sameActiveMedia_symm_false hpq) hu hx hjmem hxne
          have htrue : sameActiveMedia x j = true := by
            simp only [sameActiveMedia, decide_eq_true_eq]
            exact ⟨hactive.2, hjact.2, Or.inr ⟨by simp [hactive.1],
              hactive.1.trans hjact.1.symm⟩⟩
          rw [htrue] at hfalse
          cases hfalse
      unfold journeyExit
      rw [hst2]
      simp only
      rw [if_neg (by simp [hop2]), hnone]
  · intro jid j hfind hnact n s2
    unfold complete_journey
    rw [hfind]
    simp only
    rw [if_pos hnact]

/-- State of `scenarioB` after the successful card exit at station 2. -/
def scenarioB2 : DB :=
  ⟨[⟨1, true⟩, ⟨2, true⟩], [⟨1, 2, 3000, 0, none⟩], [⟨1, 2000, true, none⟩], [], [],
   [⟨1, none, some 1, 1, 10, some 2, some 21, some 3000, JourneyStatus.Completed⟩], 2⟩

/-- Witness for C8: after the ₹30 exit in Scenario B the second exit is
denied with the no-active-journey error. -/
theorem exit_twice_fails_witness :
    journeyExit scenarioB2 30 (Media.card 1) 2 = Except.error Err.NoActiveJourney :=
  (exit_twice_fails scenarioB 20 2 30 2 (Media.card 1) scenarioB2 ⟨2, true⟩
    (by decide) (by decide) (by decide) (by decide)).1

end Metro
